import Mathlib

/-!
Shallow embedding of the daily-reminder-bot core (Go) in Lean 4.

Modelled components:
* the data model (`User`, `Subscription`, `Todo`, `WarningLog`, qweather types);
* the warning monitor (`processWarning`, `checkCityWarnings`, `CheckAndNotify`
  from internal/service/warning.go), with the database, the weather client and
  the messaging transport replaced by explicit state / oracle parameters;
* the reminder dispatcher (`checkReminders`, `sendReminder`,
  `sendFallbackReminder`, `buildFallbackMessage` from the scheduler service)
  and the todo service's `GetIncompleteTodos` / `FormatTodoList`;
* the AI tier (`GenerateReminder` with its retry loop).

External collaborators (HTTP calls, the database driver, the Go time library)
appear as oracle parameters (`Except Unit _` results, pre-rendered calendar
strings, a time-formatting function) so every definition stays executable.
-/

namespace DailyReminderBot

/-! ## Data model (internal/model) -/

/-- internal/model/user.go: a Telegram user; only the chat address drives delivery. -/
structure User where
  id : Nat
  chatID : Int
deriving Repr, DecidableEq

/-- internal/model/subscription.go: a (user, city) reminder subscription. -/
structure Subscription where
  id : Nat
  userID : Nat
  user : User
  city : String
  reminderTime : String
  active : Bool
  enableWarning : Bool
deriving Repr, DecidableEq

/-- internal/model/todo.go (current version): a todo owned by one subscription. -/
structure Todo where
  id : Nat
  subscriptionID : Nat
  content : String
  completed : Bool
deriving Repr, DecidableEq

/-- pkg/qweather/types.go: one hazard warning as reported by the provider. -/
structure Warning where
  id : String
  title : String
  status : String
  severityColor : String
  pubTime : String
  startTime : String
  endTime : String
  sender : String
  text : String
  typ : String
  level : String
deriving Repr, DecidableEq

/-- internal/model/warning_log.go: the durable dedup record for one alert id.
`notifiedAt` is an abstract timestamp (Nat); the raw validity-window strings
are kept as reported (the Go code parses them with errors ignored). -/
structure WarningLog where
  warningID : String
  locationID : String
  city : String
  typ : String
  level : String
  title : String
  status : String
  notifiedAt : Nat
deriving Repr, DecidableEq

/-! ## String predicates used by the theorems -/

/-- `pat` occurs somewhere in `s`. -/
def strIncludes (s pat : String) : Prop := pat.data <:+: s.data

/-- `s` starts with `pat`. -/
def strStarts (s pat : String) : Prop := pat.data <+: s.data

/-- `s` ends with `pat`. -/
def strEnds (s pat : String) : Prop := pat.data <:+ s.data

instance (s pat : String) : Decidable (strIncludes s pat) := by
  unfold strIncludes; infer_instance

instance (s pat : String) : Decidable (strStarts s pat) := by
  unfold strStarts; infer_instance

instance (s pat : String) : Decidable (strEnds s pat) := by
  unfold strEnds; infer_instance

/-! ## Warning monitor (internal/service/warning.go) -/

/-- warning.go `getWarningEmoji`: severity color to banner marker. -/
def getWarningEmoji (severityColor : String) : String :=
  if severityColor == "Red" then "🔴"
  else if severityColor == "Orange" then "🟠"
  else if severityColor == "Yellow" then "🟡"
  else if severityColor == "Blue" then "🔵"
  else "⚠️"

/-- warning.go `formatWarningMessage`.  `ft` stands for the Go helper
`formatTime` (RFC3339 re-rendering via the Go time library, external here). -/
def formatWarningMessage (ft : String → String) (city : String) (w : Warning) : String :=
  "⚠️ " ++ city ++ " 天气预警\n\n"
  ++ getWarningEmoji w.severityColor ++ " " ++ w.title ++ "\n"
  ++ "发布时间：" ++ ft w.pubTime ++ "\n"
  ++ (if w.startTime != "" && w.endTime != "" then
        "生效时间：" ++ ft w.startTime ++ " - " ++ ft w.endTime ++ "\n"
      else "")
  ++ (if w.sender != "" then "发布单位：" ++ w.sender ++ "\n" else "")
  ++ (if w.text != "" then "\n详情：\n" ++ w.text ++ "\n" else "")
  ++ (if w.status == "cancel" then "\n✅ 该预警已解除"
      else if w.status == "update" then "\n🔄 该预警已更新"
      else "")

/-- warning.go `processWarning`: the notify decision.  `stored` is the result
of `GetByWarningID` (`none` = no record). -/
def shouldNotify (stored : Option WarningLog) (observed : String) : Bool :=
  match stored with
  | none => true
  | some l => l.status != observed

/-- Outcome of one `processWarning` call: the chat ids to which a send was
attempted (in order), the message of the round (if one fired), the stored
record for this alert id after the call, and whether the call returned nil. -/
structure ProcessOutcome where
  sendAttempts : List Int
  message : Option String
  newStored : Option WarningLog
  ok : Bool
deriving Repr, DecidableEq

/-- warning.go `processWarning` for a single alert.  `readErr` models a
`GetByWarningID` database error, `writeErr` a `Create`/`Update` error.  The Go
code sends to every subscriber unconditionally (a failed send is only logged),
so the attempt list never depends on per-recipient send results; the write to
the log happens only after the notification loop. -/
def processWarning (ft : String → String) (readErr : Bool) (stored : Option WarningLog)
    (city locationID : String) (w : Warning) (subs : List Subscription)
    (writeErr : Bool) (now : Nat) : ProcessOutcome :=
  if readErr then
    { sendAttempts := [], message := none, newStored := stored, ok := false }
  else if !(shouldNotify stored w.status) then
    { sendAttempts := [], message := none, newStored := stored, ok := true }
  else
    let msg := formatWarningMessage ft city w
    let attempts := subs.map (fun s => s.user.chatID)
    match stored with
    | none =>
      if writeErr then
        { sendAttempts := attempts, message := some msg, newStored := none, ok := false }
      else
        { sendAttempts := attempts, message := some msg,
          newStored := some { warningID := w.id, locationID := locationID, city := city,
                              typ := w.typ, level := w.level, title := w.title,
                              status := w.status, notifiedAt := now },
          ok := true }
    | some l =>
      if writeErr then
        { sendAttempts := attempts, message := some msg, newStored := some l, ok := false }
      else
        { sendAttempts := attempts, message := some msg,
          newStored := some { l with status := w.status, notifiedAt := now }, ok := true }

/-- internal/repository (WarningLogRepository.GetByWarningID): lookup by the
provider-assigned alert id (unique index). -/
def getByWarningID (store : List WarningLog) (id : String) : Option WarningLog :=
  store.find? (fun l => l.warningID == id)

/-- Database effect of `Create` (insert) / `Update` (save by key): replace the
row with this alert id, or append it when absent. -/
def upsertLog (store : List WarningLog) (l : WarningLog) : List WarningLog :=
  if (store.find? (fun x => x.warningID == l.warningID)).isSome then
    store.map (fun x => if x.warningID == l.warningID then l else x)
  else store ++ [l]

/-- `processWarning` acting on the whole warning-log table: read the record
for `w.id`, run the state machine, fold the resulting record back in. -/
def processWarningInStore (ft : String → String)
    (readErr writeErr : String → Bool) (store : List WarningLog)
    (city locationID : String) (w : Warning) (subs : List Subscription)
    (now : Nat) : List WarningLog × ProcessOutcome :=
  let out := processWarning ft (readErr w.id) (getByWarningID store w.id)
      city locationID w subs (writeErr w.id) now
  (match out.newStored with
   | none => store
   | some l => upsertLog store l, out)

/-- The loop over one city's returned warnings inside `checkCityWarnings`
(a per-warning failure is logged and the loop continues). -/
def processWarningList (ft : String → String) (readErr writeErr : String → Bool)
    (city locationID : String) (subs : List Subscription) (now : Nat) :
    List Warning → List WarningLog → List WarningLog × List ProcessOutcome
  | [], store => (store, [])
  | w :: ws, store =>
    let (store', out) := processWarningInStore ft readErr writeErr store city locationID w subs now
    let (store'', outs) := processWarningList ft readErr writeErr city locationID subs now ws store'
    (store'', out :: outs)

/-- Result of `checkCityWarnings` for one city: how many alert-list fetches
(`GetWarningNow` calls) were issued, the per-warning outcomes, the store
afterwards, and whether the function returned nil. -/
structure CityResult where
  warnFetchCount : Nat
  outcomes : List ProcessOutcome
  store : List WarningLog
  ok : Bool
deriving Repr, DecidableEq

/-- warning.go `checkCityWarnings`.  `locID` models `GetLocationID`, `warnNow`
models `GetWarningNow`; either failure aborts just this city. -/
def checkCityWarnings (ft : String → String)
    (locID : String → Except Unit String)
    (warnNow : String → Except Unit (List Warning))
    (readErr writeErr : String → Bool)
    (store : List WarningLog) (city : String) (subs : List Subscription)
    (now : Nat) : CityResult :=
  match locID city with
  | .error _ => { warnFetchCount := 0, outcomes := [], store := store, ok := false }
  | .ok lid =>
    match warnNow lid with
    | .error _ => { warnFetchCount := 1, outcomes := [], store := store, ok := false }
    | .ok warnings =>
      if warnings.length == 0 then
        { warnFetchCount := 1, outcomes := [], store := store, ok := true }
      else
        let (store', outs) := processWarningList ft readErr writeErr city lid subs now warnings store
        { warnFetchCount := 1, outcomes := outs, store := store', ok := true }

/-- The city grouping of `CheckAndNotify`: distinct city names of the
active + warning-enabled subscriptions, in first-occurrence order (Go builds a
map; its iteration order is unspecified, so only per-city facts are claimed). -/
def cityKeys (subs : List Subscription) : List String :=
  subs.foldl (fun acc s => if acc.contains s.city then acc else acc ++ [s.city]) []

/-- The subscriptions a given city's map entry holds. -/
def cityGroup (subs : List Subscription) (c : String) : List Subscription :=
  subs.filter (fun s => s.city == c)

/-- Result of one `CheckAndNotify` poll cycle. -/
structure CycleResult where
  fetches : List String
  results : List CityResult
  store : List WarningLog
deriving Repr, DecidableEq

/-- The per-city loop of `CheckAndNotify` (a failing city is logged and the
loop continues with the remaining cities). -/
def checkCitiesLoop (ft : String → String)
    (locID : String → Except Unit String)
    (warnNow : String → Except Unit (List Warning))
    (readErr writeErr : String → Bool) (filtered : List Subscription)
    (now : Nat) : List String → List WarningLog → CycleResult
  | [], store => { fetches := [], results := [], store := store }
  | c :: cs, store =>
    let r := checkCityWarnings ft locID warnNow readErr writeErr store c (cityGroup filtered c) now
    let rest := checkCitiesLoop ft locID warnNow readErr writeErr filtered now cs r.store
    { fetches := (if r.warnFetchCount == 1 then [c] else []) ++ rest.fetches,
      results := r :: rest.results,
      store := rest.store }

/-- warning.go `CheckAndNotify`: filter the active + warning-enabled
subscriptions, group them by city, and check each city once. -/
def checkAndNotify (ft : String → String)
    (locID : String → Except Unit String)
    (warnNow : String → Except Unit (List Warning))
    (readErr writeErr : String → Bool)
    (allSubs : List Subscription) (store : List WarningLog) (now : Nat) : CycleResult :=
  checkCitiesLoop ft locID warnNow readErr writeErr
    (allSubs.filter (fun s => s.active && s.enableWarning)) now
    (cityKeys (allSubs.filter (fun s => s.active && s.enableWarning))) store

/-! ## Reminder dispatcher (scheduler service) and todo service -/

/-- Two-digit rendering of one clock field, as Go's "15:04" layout produces. -/
def pad2 (n : Nat) : String :=
  if n < 10 then "0" ++ toString n else toString n

/-- `now.Format("15:04")` for a local clock reading `h:m`. -/
def formatHHMM (h m : Nat) : String := pad2 h ++ ":" ++ pad2 m

/-- internal/repository (SubscriptionRepository.GetByReminderTime): the query
`active = true AND reminder_time = t` over the subscription table. -/
def getByReminderTime (table : List Subscription) (t : String) : List Subscription :=
  table.filter (fun s => s.active && s.reminderTime == t)

/-- scheduler `checkReminders`: the subscriptions dispatched (one `sendReminder`
goroutine each) on the tick whose local clock reads `h:m`. -/
def checkReminders (table : List Subscription) (h m : Nat) : List Subscription :=
  getByReminderTime table (formatHHMM h m)

/-- internal/repository (TodoRepository.FindIncompleteBySubscriptionID): the
query `subscription_id = sid AND completed = false` over the todo table
(result ordering is abstracted). -/
def findIncompleteBySubscriptionID (table : List Todo) (sid : Nat) : List Todo :=
  table.filter (fun t => t.subscriptionID == sid && !t.completed)

/-- todo service `GetIncompleteTodos(subscriptionID)`. -/
def getIncompleteTodos (table : List Todo) (sid : Nat) : List Todo :=
  findIncompleteBySubscriptionID table sid

/-- The item lines of `FormatTodoList`, numbering from `i`. -/
def formatTodoItems : List Todo → Nat → String
  | [], _ => ""
  | t :: rest, i =>
    toString i ++ ". " ++ (if t.completed then "✅" else "⬜") ++ " " ++ t.content ++ "\n"
      ++ formatTodoItems rest (i + 1)

/-- todo service `FormatTodoList`. -/
def formatTodoList (todos : List Todo) : String :=
  if todos.length == 0 then "📝 暂无待办事项"
  else "📝 待办事项列表：\n\n" ++ formatTodoItems todos 1

/-- weather service `getIndexEmoji` (life-index type code to marker). -/
def getIndexEmoji (indexType : String) : String :=
  if indexType == "1" then "🏃"
  else if indexType == "3" then "👔"
  else if indexType == "5" then "☀️"
  else "📌"

/-- pkg/qweather: the current-weather fields the scheduler renders. -/
structure CurrentWeather where
  temp : String
  feelsLike : String
  text : String
  humidity : String
  windDir : String
  windScale : String
  windSpeed : String
deriving Repr, DecidableEq

/-- pkg/qweather: one life index entry. -/
structure LifeIndex where
  typ : String
  name : String
  level : String
  category : String
  text : String
deriving Repr, DecidableEq

/-- pkg/qweather: the current air-quality fields the template renders. -/
structure AirNow where
  aqi : String
  category : String
  primary : String
deriving Repr, DecidableEq

/-- Outputs of the (external) calendar collaborator at the dispatch time. -/
structure CalendarStrings where
  dateHeader : String
  todaySpecial : String
  upcomingFestivals : String
  forAI : String
deriving Repr, DecidableEq

/-- The calendar/date block shared verbatim by `buildFallbackMessage` and
`sendFallbackReminder` (the Go code duplicates this text in both functions);
`nowDate` is `now.Format("2006-01-02")`. -/
def calendarBlock (cal : Option CalendarStrings) (nowDate : String) : String :=
  match cal with
  | some c =>
    "📆 " ++ c.dateHeader ++ "\n"
    ++ (if c.todaySpecial != "" then "🎊 " ++ c.todaySpecial ++ "\n" else "")
    ++ "\n"
    ++ (if c.upcomingFestivals != "" then c.upcomingFestivals ++ "\n" else "")
  | none => "📆 " ++ nowDate ++ "\n\n"

/-- scheduler `buildFallbackMessage` (the deterministic template tier). -/
def buildFallbackMessage (cal : Option CalendarStrings) (city : String)
    (weather : CurrentWeather) (indices : List LifeIndex) (airQuality : Option AirNow)
    (warnings : List Warning) (todos : List Todo) (nowDate : String)
    (aiWasEnabled : Bool) : String :=
  "🌅 早安！今日提醒\n"
  ++ (if warnings.length > 0 then
        "\n⚠️ 天气预警\n"
        ++ String.join (warnings.map (fun w => getWarningEmoji w.severityColor ++ " " ++ w.title ++ "\n"))
        ++ "\n"
      else "")
  ++ calendarBlock cal nowDate
  ++ ("📍 " ++ city ++ " 天气播报\n\n"
      ++ "🌡️ 温度：" ++ weather.temp ++ "°C（体感 " ++ weather.feelsLike ++ "°C）\n"
      ++ "☁️ 天气：" ++ weather.text ++ "\n"
      ++ "💧 湿度：" ++ weather.humidity ++ "%\n"
      ++ "🌬️ 风向：" ++ weather.windDir ++ " " ++ weather.windScale ++ "级（"
      ++ weather.windSpeed ++ " km/h）\n\n")
  ++ (if indices.length > 0 then
        "📋 生活指数：\n"
        ++ String.join (indices.map (fun idx =>
             if idx.typ == "3" || idx.typ == "5" || idx.typ == "1" then
               getIndexEmoji idx.typ ++ " " ++ idx.name ++ "：" ++ idx.category ++ "\n"
               ++ (if idx.text != "" then "   " ++ idx.text ++ "\n" else "")
             else ""))
        ++ "\n"
      else "")
  ++ (match airQuality with
      | some aq =>
        "🌫️ 空气质量：\n"
        ++ "   AQI：" ++ aq.aqi ++ "（" ++ aq.category ++ "）\n"
        ++ (if aq.primary != "" && aq.primary != "NA" then "   主要污染物：" ++ aq.primary ++ "\n" else "")
        ++ "\n"
      | none => "")
  ++ formatTodoList todos
  ++ (if aiWasEnabled then "\n---\n(AI 服务暂不可用，使用默认模板)" else "")

/-! ## AI tier (AIService.GenerateReminder) -/

/-- Observable outcome of `GenerateReminder`: how many completion calls were
made, the total seconds slept between attempts, and the returned content
(`none` stands for the `("", false)` failure return). -/
structure GenResult where
  calls : Nat
  sleepSeconds : Nat
  output : Option String
deriving Repr, DecidableEq

/-- The retry loop `for i := 0; i < maxRetries; i++` of `GenerateReminder`.
`gc i` is the completion collaborator's response on attempt `i` (`none` =
error).  A sleep of `2^i` seconds happens only after a failed attempt with
`i < maxRetries - 1`. -/
def attemptLoop (gc : Nat → Option String) (maxRetries : Nat) (i : Nat) : GenResult :=
  if _h : i < maxRetries then
    match gc i with
    | some c => { calls := 1, sleepSeconds := 0, output := some c }
    | none =>
      let rest := attemptLoop gc maxRetries (i + 1)
      { calls := rest.calls + 1,
        sleepSeconds := (if i < maxRetries - 1 then 2 ^ i else 0) + rest.sleepSeconds,
        output := rest.output }
  else { calls := 0, sleepSeconds := 0, output := none }
termination_by maxRetries - i
decreasing_by omega

/-- `AIService.IsEnabled`: the enabled flag and a non-nil client. -/
def isEnabled (enabled hasClient : Bool) : Bool := enabled && hasClient

/-- `AIService.GenerateReminder`: immediate failure when disabled, otherwise
the retry loop.  `maxRetries` is a Go `int`; a non-positive value means the
loop body never runs (`Int.toNat` is exactly `max 0`). -/
def generateReminder (enabled hasClient : Bool) (maxRetries : Int)
    (gc : Nat → Option String) : GenResult :=
  if isEnabled enabled hasClient then attemptLoop gc maxRetries.toNat 0
  else { calls := 0, sleepSeconds := 0, output := none }

/-! ## One subscription's dispatch (`sendReminder` / `sendFallbackReminder`) -/

/-- The collaborator responses one `sendReminder` run observes.  Slice-valued
Go results carry nil as the empty list; `airNow` models `(*AirNow, error)`
where the pointer may be nil.  `todoErr id` is a database error on
`GetIncompleteTodos id`; `gc` is the completion collaborator (per attempt). -/
structure DispatchEnv where
  locationID : Except Unit String
  weather : Except Unit CurrentWeather
  lifeIndices : Except Unit (List LifeIndex)
  airNow : Except Unit (Option AirNow)
  warningsFetch : Except Unit (List Warning)
  warningSvcPresent : Bool
  todoErr : Nat → Bool
  todoTable : List Todo
  calendar : Option CalendarStrings
  aiPresent : Bool
  aiEnabled : Bool
  aiHasClient : Bool
  maxRetries : Int
  gc : Nat → Option String
  nowDate : String

/-- One message handed to the delivery sink (the send is attempted exactly
once; a transport error is only logged).  `degraded` marks the
`sendFallbackReminder` path. -/
structure Delivery where
  chatID : Int
  message : String
  degraded : Bool
deriving Repr, DecidableEq

/-- `GetIncompleteTodos` as called from the scheduler: nil on a database
error, the subscription-keyed query result otherwise. -/
def fetchedTodos (env : DispatchEnv) (id : Nat) : List Todo :=
  if env.todoErr id then [] else getIncompleteTodos env.todoTable id

/-- scheduler `sendFallbackReminder`.  The Go code passes `sub.UserID` to
`GetIncompleteTodos` here (the normal path passes `sub.ID`). -/
def sendFallbackReminder (env : DispatchEnv) (sub : Subscription) (errorMsg : String) : Delivery :=
  let todos := fetchedTodos env sub.userID
  { chatID := sub.user.chatID,
    message := "🌅 早安！今日提醒\n" ++ calendarBlock env.calendar env.nowDate
      ++ errorMsg ++ "\n\n" ++ formatTodoList todos,
    degraded := true }

/-- scheduler `sendReminder`: the full per-subscription pipeline. -/
def sendReminder (env : DispatchEnv) (sub : Subscription) : Delivery :=
  match env.locationID with
  | .error _ => sendFallbackReminder env sub ("⚠️ 无法获取 " ++ sub.city ++ " 的位置信息")
  | .ok _ =>
    match env.weather with
    | .error _ => sendFallbackReminder env sub ("⚠️ 无法获取 " ++ sub.city ++ " 的天气信息")
    | .ok weather =>
      let indices := match env.lifeIndices with | .ok v => v | .error _ => []
      let airQuality := match env.airNow with | .ok v => v | .error _ => none
      let warnings := if env.warningSvcPresent then
          (match env.warningsFetch with | .ok v => v | .error _ => []) else []
      let todos := fetchedTodos env sub.id
      let aiOn := env.aiPresent && isEnabled env.aiEnabled env.aiHasClient
      let aiMessage := if aiOn then
          (match (generateReminder env.aiEnabled env.aiHasClient env.maxRetries env.gc).output with
           | some c => c
           | none => "")
        else ""
      let message := if aiMessage == "" then
          buildFallbackMessage env.calendar sub.city weather indices airQuality warnings todos
            env.nowDate aiOn
        else aiMessage
      { chatID := sub.user.chatID, message := message, degraded := false }

/-! ## Concrete exemplar inputs (for counterexamples and witnesses) -/

/-- A concrete user (chat id 42). -/
def exUser : User := { id := 2, chatID := 42 }

/-- A second concrete user (chat id 77). -/
def exUser2 : User := { id := 5, chatID := 77 }

/-- A concrete Beijing subscription; note `id = 1` while `userID = 2`. -/
def exSub : Subscription :=
  { id := 1, userID := 2, user := exUser, city := "北京", reminderTime := "08:00",
    active := true, enableWarning := true }

/-- A second Beijing subscription for a different user. -/
def exSub2 : Subscription :=
  { id := 4, userID := 5, user := exUser2, city := "北京", reminderTime := "09:30",
    active := true, enableWarning := true }

/-- A Shanghai subscription. -/
def exSubSH : Subscription :=
  { id := 6, userID := 2, user := exUser, city := "上海", reminderTime := "08:00",
    active := true, enableWarning := true }

/-- A concrete incomplete todo belonging to subscription 1. -/
def exTodo : Todo := { id := 1, subscriptionID := 1, content := "买牛奶", completed := false }

/-- A provider warning currently in status `active`. -/
def exWarnActive : Warning :=
  { id := "10101", title := "暴雨橙色预警", status := "active", severityColor := "Orange",
    pubTime := "2024-01-01T08:00+08:00", startTime := "", endTime := "", sender := "",
    text := "", typ := "11B1", level := "Orange" }

/-- The same warning reported in status `update`. -/
def exWarnUpdate : Warning := { exWarnActive with status := "update" }

/-- The same warning reported in status `cancel`. -/
def exWarnCancel : Warning := { exWarnActive with status := "cancel" }

/-- A stored record for alert id 10101 already in the terminal status. -/
def exLogCancel : WarningLog :=
  { warningID := "10101", locationID := "loc1", city := "北京", typ := "11B1",
    level := "Orange", title := "暴雨橙色预警", status := "cancel", notifiedAt := 50 }

/-- A stored record for alert id 10101 in status `active`. -/
def exLogActive : WarningLog := { exLogCancel with status := "active", notifiedAt := 40 }

/-- A concrete current-weather reading. -/
def exWeather : CurrentWeather :=
  { temp := "5", feelsLike := "3", text := "晴", humidity := "40",
    windDir := "北风", windScale := "3", windSpeed := "15" }

/-- A dispatch environment in which every collaborator succeeds and AI is off. -/
def exEnvBase : DispatchEnv :=
  { locationID := .ok "loc1", weather := .ok exWeather, lifeIndices := .ok [],
    airNow := .ok none, warningsFetch := .ok [], warningSvcPresent := true,
    todoErr := fun _ => false, todoTable := [exTodo], calendar := none,
    aiPresent := false, aiEnabled := false, aiHasClient := false, maxRetries := 3,
    gc := fun _ => none, nowDate := "2025-01-01" }

/-- The same environment with location resolution failing. -/
def exEnvLocFail : DispatchEnv := { exEnvBase with locationID := .error () }

/-- The same environment with the AI tier present and enabled but every
completion call failing. -/
def exEnvAI : DispatchEnv :=
  { exEnvBase with aiPresent := true, aiEnabled := true, aiHasClient := true }

/-- The AI environment with `maxRetries = 0`. -/
def exEnvAI0 : DispatchEnv := { exEnvAI with maxRetries := 0 }

/-- The base environment with every non-critical fetch failing. -/
def exEnvDegraded : DispatchEnv :=
  { exEnvBase with
    lifeIndices := Except.error (),
    airNow := Except.error (),
    warningsFetch := Except.error (),
    todoErr := fun _ => true }

/-- A concrete location oracle: only Beijing resolves. -/
def exLocID : String → Except Unit String :=
  fun c => if c == "北京" then Except.ok "loc1" else Except.error ()

/-- A concrete alert-list oracle: one active warning everywhere. -/
def exWarnNow : String → Except Unit (List Warning) :=
  fun _ => Except.ok [exWarnActive]

/-! ## Helper lemmas -/

/-- When every completion attempt fails, the loop from attempt `i` makes one
call per remaining attempt and sleeps `2^j` seconds after every failed attempt
except the last. -/
lemma attemptLoop_allFail (gc : Nat → Option String) (h : ∀ j, gc j = none) (mR : Nat) :
    ∀ k i, mR - i ≤ k → attemptLoop gc mR i =
      { calls := mR - i, sleepSeconds := ∑ j ∈ Finset.Ico i (mR - 1), 2 ^ j, output := none } := by
  intro k
  induction k with
  | zero =>
    intro i hi
    rw [attemptLoop, dif_neg (by omega)]
    have h2 : Finset.Ico i (mR - 1) = ∅ := Finset.Ico_eq_empty (by omega)
    simp [h2, Nat.sub_eq_zero_of_le (by omega : mR ≤ i)]
  | succ k ih =>
    intro i hi
    by_cases hlt : i < mR
    · rw [attemptLoop, dif_pos hlt]
      simp only [h i]
      rw [ih (i + 1) (by omega)]
      have hc : mR - (i + 1) + 1 = mR - i := by omega
      by_cases hs : i < mR - 1
      · rw [Finset.sum_eq_sum_Ico_succ_bot hs]
        simp [hc, hs]
      · have h1 : Finset.Ico i (mR - 1) = ∅ := Finset.Ico_eq_empty (by omega)
        have h2 : Finset.Ico (i + 1) (mR - 1) = ∅ := Finset.Ico_eq_empty (by omega)
        simp [h1, h2, hs, hc]
    · rw [attemptLoop, dif_neg hlt]
      have h2 : Finset.Ico i (mR - 1) = ∅ := Finset.Ico_eq_empty (by omega)
      simp [h2, Nat.sub_eq_zero_of_le (by omega : mR ≤ i)]

/-- The first non-error completion response is returned at once: attempts
before `k` fail, attempt `k` succeeds, the loop stops with `k + 1 - i` calls. -/
lemma attemptLoop_firstSuccess (gc : Nat → Option String) (mR k : Nat) (c : String)
    (hfail : ∀ j < k, gc j = none) (hsucc : gc k = some c) (hk : k < mR) :
    ∀ d i, k - i ≤ d → i ≤ k → attemptLoop gc mR i =
      { calls := k + 1 - i, sleepSeconds := ∑ j ∈ Finset.Ico i k, 2 ^ j, output := some c } := by
  intro d
  induction d with
  | zero =>
    intro i hd hik
    have : i = k := by omega
    subst this
    rw [attemptLoop, dif_pos hk]
    simp [hsucc]
  | succ d ih =>
    intro i hd hik
    by_cases hik' : i = k
    · subst hik'
      rw [attemptLoop, dif_pos hk]
      simp [hsucc]
    · have hiklt : i < k := by omega
      rw [attemptLoop, dif_pos (by omega)]
      simp only [hfail i hiklt]
      rw [ih (i + 1) (by omega) (by omega)]
      have hc : k + 1 - (i + 1) + 1 = k + 1 - i := by omega
      rw [Finset.sum_eq_sum_Ico_succ_bot hiklt]
      have hs : i < mR - 1 := by omega
      simp [hc, hs]
      omega

/-- The retry loop never makes more calls than attempts remain. -/
lemma attemptLoop_calls_le (gc : Nat → Option String) (mR : Nat) :
    ∀ k i, mR - i ≤ k → (attemptLoop gc mR i).calls ≤ mR - i := by
  intro k
  induction k with
  | zero =>
    intro i hi
    rw [attemptLoop, dif_neg (by omega)]
    simp
  | succ k ih =>
    intro i hi
    by_cases hlt : i < mR
    · rw [attemptLoop, dif_pos hlt]
      cases hgc : gc i with
      | some c => simp; omega
      | none =>
        simp only []
        have := ih (i + 1) (by omega)
        simp
        omega
    · rw [attemptLoop, dif_neg hlt]
      simp

/-- `GenerateReminder` on an enabled service with a non-negative retry budget
is exactly the retry loop. -/
lemma generateReminder_ofNat (gc : Nat → Option String) (mR : Nat) :
    generateReminder true true (Int.ofNat mR) gc = attemptLoop gc mR 0 := by
  simp [generateReminder, isEnabled]

/-- When location and weather succeed but the enabled AI tier returns failure,
`sendReminder` delivers the template built from the defaulted fetch values with
the AI-unavailable flag set. -/
lemma sendReminder_aiFail (env : DispatchEnv) (sub : Subscription) (lid : String)
    (weather : CurrentWeather)
    (hloc : env.locationID = .ok lid) (hw : env.weather = .ok weather)
    (hai : (env.aiPresent && isEnabled env.aiEnabled env.aiHasClient) = true)
    (hout : (generateReminder env.aiEnabled env.aiHasClient env.maxRetries env.gc).output = none) :
    sendReminder env sub =
      { chatID := sub.user.chatID,
        message := buildFallbackMessage env.calendar sub.city weather
          (match env.lifeIndices with | .ok v => v | .error _ => [])
          (match env.airNow with | .ok v => v | .error _ => none)
          (if env.warningSvcPresent then
            (match env.warningsFetch with | .ok v => v | .error _ => []) else [])
          (fetchedTodos env sub.id) env.nowDate true,
        degraded := false } := by
  unfold sendReminder
  rw [hloc, hw]
  simp only [hai, hout, if_true]
  simp

/-- The template built with the AI-unavailable flag ends in the visible
substitution notice. -/
lemma buildFallbackMessage_notice (cal : Option CalendarStrings) (city : String)
    (weather : CurrentWeather) (indices : List LifeIndex) (aq : Option AirNow)
    (warns : List Warning) (todos : List Todo) (d : String) :
    strEnds (buildFallbackMessage cal city weather indices aq warns todos d true)
      "\n---\n(AI 服务暂不可用，使用默认模板)" := by
  unfold buildFallbackMessage strEnds
  rw [if_pos rfl]
  rw [String.data_append]
  exact List.suffix_append _ _

/-! ## Claim theorems -/

/-- C2: on a per-minute tick at local time h:m, exactly the active
subscriptions whose stored delivery time equals the formatted current time are
dispatched to `sendReminder`, each exactly as often as it occurs in the table,
and no inactive or non-matching subscription is dispatched. -/
theorem reminder_due_check_exact (table : List Subscription) (h m : Nat) (s : Subscription) :
    (s.active = true ∧ s.reminderTime = formatHHMM h m →
      (checkReminders table h m).count s = table.count s)
    ∧ (s.active = false ∨ s.reminderTime ≠ formatHHMM h m →
      (checkReminders table h m).count s = 0)
    ∧ (∀ x ∈ checkReminders table h m, x.active = true ∧ x.reminderTime = formatHHMM h m) := by
  refine ⟨?_, ?_, ?_⟩
  · rintro ⟨h1, h2⟩
    exact List.count_filter (by simp [h1, h2])
  · intro hcase
    rw [List.count_eq_zero]
    intro hx
    have hp := List.of_mem_filter hx
    simp only [Bool.and_eq_true, beq_iff_eq] at hp
    rcases hcase with hc | hc
    · rw [hc] at hp
      simp at hp
    · exact hc hp.2
  · intro x hx
    have hp := List.of_mem_filter hx
    simp only [Bool.and_eq_true, beq_iff_eq] at hp
    exact hp

/-- C2 witness: at 08:00 the 08:00 subscription is dispatched once and the
09:30 subscription is not dispatched. -/
theorem reminder_due_check_exact_witness :
    (checkReminders [exSub, exSub2] 8 0).count exSub = [exSub, exSub2].count exSub
    ∧ (checkReminders [exSub, exSub2] 8 0).count exSub2 = 0 :=
  ⟨(reminder_due_check_exact [exSub, exSub2] 8 0 exSub).1 ⟨rfl, by decide⟩,
   (reminder_due_check_exact [exSub, exSub2] 8 0 exSub2).2.1 (Or.inr (by decide))⟩

/-- C3: when every completion attempt fails, `GenerateReminder` makes exactly
`maxRetries` calls, sleeps `2^i` seconds only after failed attempts
`i < maxRetries - 1` (total backoff `∑ i < maxRetries - 1, 2^i`), and returns
failure; the delivered message is then the deterministic template with the
visible AI-unavailable notice at its end; a non-error response on attempt `k`
is returned immediately with `k + 1` calls made. -/
theorem ai_retry_fallback
    (mR : Nat) (gcF gcS : Nat → Option String) (k : Nat) (c : String)
    (env : DispatchEnv) (sub : Subscription) (lid : String) (weather : CurrentWeather)
    (hfail : ∀ j, gcF j = none)
    (hpre : ∀ j < k, gcS j = none) (hk : gcS k = some c) (hklt : k < mR)
    (hep : env.aiPresent = true) (hen : env.aiEnabled = true) (hcl : env.aiHasClient = true)
    (hmr : env.maxRetries = Int.ofNat mR) (hgc : env.gc = gcF)
    (hloc : env.locationID = .ok lid) (hw : env.weather = .ok weather) :
    (generateReminder true true (Int.ofNat mR) gcF).calls = mR
    ∧ (generateReminder true true (Int.ofNat mR) gcF).sleepSeconds
        = ∑ i ∈ Finset.range (mR - 1), 2 ^ i
    ∧ (generateReminder true true (Int.ofNat mR) gcF).output = none
    ∧ (sendReminder env sub).message =
        buildFallbackMessage env.calendar sub.city weather
          (match env.lifeIndices with | .ok v => v | .error _ => [])
          (match env.airNow with | .ok v => v | .error _ => none)
          (if env.warningSvcPresent then
            (match env.warningsFetch with | .ok v => v | .error _ => []) else [])
          (fetchedTodos env sub.id) env.nowDate true
    ∧ strEnds (sendReminder env sub).message "\n---\n(AI 服务暂不可用，使用默认模板)"
    ∧ (generateReminder true true (Int.ofNat mR) gcS).output = some c
    ∧ (generateReminder true true (Int.ofNat mR) gcS).calls = k + 1 := by
  have hF := attemptLoop_allFail gcF hfail mR mR 0 (by omega)
  have hS := attemptLoop_firstSuccess gcS mR k c hpre hk hklt k 0 (by omega) (by omega)
  have hout : (generateReminder env.aiEnabled env.aiHasClient env.maxRetries env.gc).output = none := by
    rw [hen, hcl, hmr, hgc, generateReminder_ofNat, hF]
  have hmsg := sendReminder_aiFail env sub lid weather hloc hw
    (by simp [hep, hen, hcl, isEnabled]) hout
  refine ⟨?_, ?_, ?_, ?_, ?_, ?_, ?_⟩
  · rw [generateReminder_ofNat, hF]
    simp
  · rw [generateReminder_ofNat, hF, Finset.range_eq_Ico]
  · rw [generateReminder_ofNat, hF]
  · rw [hmsg]
  · rw [hmsg]
    exact buildFallbackMessage_notice _ _ _ _ _ _ _ _
  · rw [generateReminder_ofNat, hS]
  · rw [generateReminder_ofNat, hS]
    simp

/-- C3 witness at `maxRetries = 3`: three failing calls, 1 + 2 seconds of
backoff, template delivery with the notice; a success on attempt 1 stops after
two calls. -/
theorem ai_retry_fallback_witness :
    (generateReminder true true (Int.ofNat 3) (fun _ => none)).calls = 3
    ∧ (generateReminder true true (Int.ofNat 3) (fun _ => none)).sleepSeconds
        = ∑ i ∈ Finset.range (3 - 1), 2 ^ i
    ∧ (generateReminder true true (Int.ofNat 3) (fun _ => none)).output = none
    ∧ strEnds (sendReminder exEnvAI exSub).message "\n---\n(AI 服务暂不可用，使用默认模板)"
    ∧ (generateReminder true true (Int.ofNat 3) (fun i => if i == 1 then some "内容" else none)).output
        = some "内容"
    ∧ (generateReminder true true (Int.ofNat 3) (fun i => if i == 1 then some "内容" else none)).calls
        = 2 := by
  have h := ai_retry_fallback 3 (fun _ => none) (fun i => if i == 1 then some "内容" else none)
    1 "内容" exEnvAI exSub "loc1" exWeather (fun _ => rfl) (by decide) rfl (by decide)
    rfl rfl rfl rfl rfl rfl rfl
  exact ⟨h.1, h.2.1, h.2.2.1, h.2.2.2.2.1, h.2.2.2.2.2.1, h.2.2.2.2.2.2⟩

/-- C10: `GenerateReminder` makes at most `maxRetries` completion calls, makes
zero calls when `IsEnabled()` is false or `maxRetries ≤ 0`, and when the AI
tier is enabled with `maxRetries = 0` it returns failure without contacting
the completion service, so the delivered reminder is the template with the
AI-unavailable notice at its end. -/
theorem ai_gate_bounds
    (enabled hasClient : Bool) (maxRetries : Int) (gc : Nat → Option String)
    (env : DispatchEnv) (sub : Subscription) (lid : String) (weather : CurrentWeather)
    (hloc : env.locationID = .ok lid) (hw : env.weather = .ok weather)
    (hep : env.aiPresent = true) (hen : env.aiEnabled = true) (hcl : env.aiHasClient = true)
    (hmr : env.maxRetries = 0) :
    (generateReminder enabled hasClient maxRetries gc).calls ≤ maxRetries.toNat
    ∧ (isEnabled enabled hasClient = false →
        (generateReminder enabled hasClient maxRetries gc).calls = 0)
    ∧ (maxRetries ≤ 0 → (generateReminder enabled hasClient maxRetries gc).calls = 0)
    ∧ generateReminder env.aiEnabled env.aiHasClient env.maxRetries env.gc
        = { calls := 0, sleepSeconds := 0, output := none }
    ∧ strEnds (sendReminder env sub).message "\n---\n(AI 服务暂不可用，使用默认模板)" := by
  have hzero : ∀ g : Nat → Option String,
      attemptLoop g 0 0 = { calls := 0, sleepSeconds := 0, output := none } := by
    intro g
    rw [attemptLoop, dif_neg (by omega)]
  have h4 : generateReminder env.aiEnabled env.aiHasClient env.maxRetries env.gc
      = { calls := 0, sleepSeconds := 0, output := none } := by
    rw [hen, hcl, hmr]
    simp only [generateReminder, isEnabled, Bool.and_self, if_true]
    exact hzero _
  refine ⟨?_, ?_, ?_, h4, ?_⟩
  · unfold generateReminder
    by_cases he : isEnabled enabled hasClient
    · rw [if_pos he]
      have := attemptLoop_calls_le gc maxRetries.toNat maxRetries.toNat 0 (by omega)
      omega
    · rw [if_neg he]
      simp
  · intro he
    simp [generateReminder, he]
  · intro hneg
    have ht : maxRetries.toNat = 0 := Int.toNat_of_nonpos hneg
    unfold generateReminder
    by_cases he : isEnabled enabled hasClient
    · rw [if_pos he, ht, hzero]
    · rw [if_neg he]
  · have hmsg := sendReminder_aiFail env sub lid weather hloc hw
      (by simp [hep, hen, hcl, isEnabled]) (by rw [h4])
    rw [hmsg]
    exact buildFallbackMessage_notice _ _ _ _ _ _ _ _

/-- C10 witness: a disabled service and a zero budget make zero calls, and
with `maxRetries = 0` the enabled tier fails without any call, delivering the
template with the notice. -/
theorem ai_gate_bounds_witness :
    (generateReminder true true 0 (fun _ => some "x")).calls ≤ (0 : Int).toNat
    ∧ (isEnabled false true = false → (generateReminder false true 0 (fun _ => some "x")).calls = 0)
    ∧ generateReminder exEnvAI0.aiEnabled exEnvAI0.aiHasClient exEnvAI0.maxRetries exEnvAI0.gc
        = { calls := 0, sleepSeconds := 0, output := none }
    ∧ strEnds (sendReminder exEnvAI0 exSub).message "\n---\n(AI 服务暂不可用，使用默认模板)" := by
  have h1 := ai_gate_bounds true true 0 (fun _ => some "x") exEnvAI0 exSub "loc1" exWeather
    rfl rfl rfl rfl rfl rfl
  have h2 := ai_gate_bounds false true 0 (fun _ => some "x") exEnvAI0 exSub "loc1" exWeather
    rfl rfl rfl rfl rfl rfl
  exact ⟨h1.1, fun _ => h2.2.2.1 (by omega), h1.2.2.2.1, h1.2.2.2.2⟩

/-- A warning reported in the terminal status renders the cancellation notice
at the end of its notification message. -/
lemma formatWarningMessage_cancel (ft : String → String) (city : String) (w : Warning)
    (hc : w.status = "cancel") :
    strEnds (formatWarningMessage ft city w) "\n✅ 该预警已解除" := by
  unfold formatWarningMessage strEnds
  rw [hc]
  simp only [if_pos rfl, beq_self_eq_true]
  rw [String.data_append]
  exact List.suffix_append _ _

/-- C1 (amended): with no read/write failure, the first observation of an
alert id fires one notification round (one send attempt per subscriber) and
persists a new record whose status is the provider-reported status — `active`
exactly when the provider reports `active` — with `notifiedAt = now`; an
observation equal to the stored status fires nothing and leaves the record
unchanged; a differing observation fires one round and updates status and
`notifiedAt`; a cancellation report fires a round whose message carries the
cancellation notice and stores the terminal `cancel` status. -/
theorem warning_dedup_lifecycle (ft : String → String) (city lid : String)
    (w : Warning) (subs : List Subscription) (now : Nat) (l : WarningLog) :
    (processWarning ft false none city lid w subs false now =
      { sendAttempts := subs.map (fun s => s.user.chatID),
        message := some (formatWarningMessage ft city w),
        newStored := some { warningID := w.id, locationID := lid, city := city,
                            typ := w.typ, level := w.level, title := w.title,
                            status := w.status, notifiedAt := now },
        ok := true })
    ∧ (l.status = w.status →
        processWarning ft false (some l) city lid w subs false now =
          { sendAttempts := [], message := none, newStored := some l, ok := true })
    ∧ (l.status ≠ w.status →
        processWarning ft false (some l) city lid w subs false now =
          { sendAttempts := subs.map (fun s => s.user.chatID),
            message := some (formatWarningMessage ft city w),
            newStored := some { l with status := w.status, notifiedAt := now },
            ok := true })
    ∧ (w.status = "cancel" → l.status ≠ "cancel" →
        strEnds (formatWarningMessage ft city w) "\n✅ 该预警已解除"
        ∧ (processWarning ft false (some l) city lid w subs false now).newStored
            = some { l with status := "cancel", notifiedAt := now }) := by
  refine ⟨?_, ?_, ?_, ?_⟩
  · simp [processWarning, shouldNotify]
  · intro hsame
    simp [processWarning, shouldNotify, hsame]
  · intro hdiff
    simp [processWarning, shouldNotify, hdiff]
  · intro hcancel hterm
    refine ⟨formatWarningMessage_cancel ft city w hcancel, ?_⟩
    have hdiff : l.status ≠ w.status := by rw [hcancel]; exact hterm
    simp [processWarning, shouldNotify, hdiff, hcancel, hterm]

/-- C1 counterexample: a first observation whose provider-reported status is
`update` persists a record in status `update`, not `active` as the claim
states. -/
theorem warning_first_record_status_not_active :
    (processWarning id false none "北京" "loc1" exWarnUpdate [exSub] false 5).newStored.map
        WarningLog.status = some "update"
    ∧ ¬ ((processWarning id false none "北京" "loc1" exWarnUpdate [exSub] false 5).newStored.map
        WarningLog.status = some "active") := by
  constructor
  · rfl
  · decide

/-- C1 witness: the amended lifecycle at alert 10101 — first observation
notifies and stores `active`; an unchanged poll is silent; a cancellation poll
carries the notice and stores the terminal status. -/
theorem warning_dedup_lifecycle_witness :
    (processWarning id false none "北京" "loc1" exWarnActive [exSub] false 100).sendAttempts
        = [exSub].map (fun s => s.user.chatID)
    ∧ processWarning id false (some exLogActive) "北京" "loc1" exWarnActive [exSub] false 200
        = { sendAttempts := [], message := none, newStored := some exLogActive, ok := true }
    ∧ strEnds (formatWarningMessage id "北京" exWarnCancel) "\n✅ 该预警已解除"
    ∧ (processWarning id false (some exLogActive) "北京" "loc1" exWarnCancel [exSub] false 300).newStored
        = some { exLogActive with status := "cancel", notifiedAt := 300 } := by
  have h1 := warning_dedup_lifecycle id "北京" "loc1" exWarnActive [exSub] 100 exLogActive
  have h2 := warning_dedup_lifecycle id "北京" "loc1" exWarnActive [exSub] 200 exLogActive
  have h3 := warning_dedup_lifecycle id "北京" "loc1" exWarnCancel [exSub] 300 exLogActive
  exact ⟨by rw [h1.1], h2.2.1 rfl, (h3.2.2.2 rfl (by decide)).1, (h3.2.2.2 rfl (by decide)).2⟩

/-- C4 (amended): within one alert id's life, an error-free poll fires a
notification round precisely when the provider-reported status differs from
the stored status; a poll repeating the terminal `cancel` status fires
nothing, but — unlike the claim — a differing report fires again even when
the stored status is already terminal (the cancelled-id reuse case is not
excluded by the code); after any error-free poll the stored status equals the
provider-reported status. -/
theorem warning_status_transitions (ft : String → String) (city lid : String)
    (w : Warning) (subs : List Subscription) (now : Nat) (l : WarningLog)
    (hsubs : subs ≠ []) :
    ((processWarning ft false (some l) city lid w subs false now).sendAttempts ≠ []
        ↔ l.status ≠ w.status)
    ∧ (l.status = "cancel" → w.status = "cancel" →
        processWarning ft false (some l) city lid w subs false now
          = { sendAttempts := [], message := none, newStored := some l, ok := true })
    ∧ (l.status = "cancel" → w.status ≠ "cancel" →
        (processWarning ft false (some l) city lid w subs false now).sendAttempts
          = subs.map (fun s => s.user.chatID)
        ∧ (processWarning ft false (some l) city lid w subs false now).message
          = some (formatWarningMessage ft city w))
    ∧ ((processWarning ft false (some l) city lid w subs false now).newStored.map
        WarningLog.status = some w.status) := by
  refine ⟨?_, ?_, ?_, ?_⟩
  · by_cases hd : l.status = w.status
    · simp [processWarning, shouldNotify, hd]
    · simp [processWarning, shouldNotify, hd, hsubs]
  · intro h1 h2
    simp [processWarning, shouldNotify, h1, h2]
  · intro h1 h2
    have hd : l.status ≠ w.status := by rw [h1]; exact fun he => h2 he.symm
    simp [processWarning, shouldNotify, hd]
  · by_cases hd : l.status = w.status
    · simp [processWarning, shouldNotify, hd]
    · simp [processWarning, shouldNotify, hd]

/-- C4 counterexample: with the stored status already the terminal `cancel`,
a later poll reporting `active` for the same alert id fires another
notification round, contradicting the claim's terminality. -/
theorem warning_terminal_status_refires :
    exLogCancel.status = "cancel"
    ∧ (processWarning id false (some exLogCancel) "北京" "loc1" exWarnActive [exSub] false 9).sendAttempts
        = [42]
    ∧ (processWarning id false (some exLogCancel) "北京" "loc1" exWarnActive [exSub] false 9).message.isSome
        = true :=
  ⟨rfl, rfl, rfl⟩

/-- C4 witness: a repeated `cancel` report fires nothing, and after an
`active` report the stored status tracks the provider status. -/
theorem warning_status_transitions_witness :
    processWarning id false (some exLogCancel) "北京" "loc1" exWarnCancel [exSub] false 11
      = { sendAttempts := [], message := none, newStored := some exLogCancel, ok := true }
    ∧ ((processWarning id false (some exLogCancel) "北京" "loc1" exWarnActive [exSub] false 12).sendAttempts
        ≠ [] ↔ exLogCancel.status ≠ exWarnActive.status)
    ∧ (processWarning id false (some exLogCancel) "北京" "loc1" exWarnActive [exSub] false 12).newStored.map
        WarningLog.status = some exWarnActive.status := by
  have hC := warning_status_transitions id "北京" "loc1" exWarnCancel [exSub] 11 exLogCancel
    (List.cons_ne_nil _ _)
  have hA := warning_status_transitions id "北京" "loc1" exWarnActive [exSub] 12 exLogCancel
    (List.cons_ne_nil _ _)
  exact ⟨hC.2.1 rfl rfl, hA.1, hA.2.2.2⟩

/-- C5 (amended): a warning-log read failure skips the alert before any
notification (no send, state unchanged, error returned); a write failure,
however, happens only after the notification round has been sent — the stored
state is left unchanged, so the same transition fires again on the next poll
(at-least-once delivery, not the claimed at-most-once). -/
theorem warning_persistence_failure_paths (ft : String → String) (city lid : String)
    (w : Warning) (subs : List Subscription) (now now2 : Nat) (stored : Option WarningLog) :
    (processWarning ft true stored city lid w subs false now
       = { sendAttempts := [], message := none, newStored := stored, ok := false })
    ∧ (shouldNotify stored w.status = true →
        (processWarning ft false stored city lid w subs true now).sendAttempts
            = subs.map (fun s => s.user.chatID)
        ∧ (processWarning ft false stored city lid w subs true now).newStored = stored
        ∧ (processWarning ft false stored city lid w subs true now).ok = false)
    ∧ ((processWarning ft false
          ((processWarning ft false none city lid w subs true now).newStored)
          city lid w subs false now2).sendAttempts = subs.map (fun s => s.user.chatID)) := by
  refine ⟨?_, ?_, ?_⟩
  · simp [processWarning]
  · intro hsn
    cases stored with
    | none => simp [processWarning, shouldNotify]
    | some l =>
      have hd : (l.status != w.status) = true := by simpa [shouldNotify] using hsn
      simp [processWarning, shouldNotify, hd]
  · simp [processWarning, shouldNotify]

/-- C5 counterexample: when persisting the new record fails, the notification
round has already been attempted in that same cycle (contradicting "no
notification sent for it in that cycle"), and the next error-free poll of the
same unchanged observation notifies again. -/
theorem warning_write_failure_still_notifies :
    (processWarning id false none "北京" "loc1" exWarnActive [exSub] true 7).sendAttempts = [42]
    ∧ (processWarning id false none "北京" "loc1" exWarnActive [exSub] true 7).ok = false
    ∧ (processWarning id false
        ((processWarning id false none "北京" "loc1" exWarnActive [exSub] true 7).newStored)
        "北京" "loc1" exWarnActive [exSub] false 8).sendAttempts = [42] :=
  ⟨rfl, rfl, rfl⟩

/-- C5 witness: a read failure yields a silent skip; a write failure leaves
the store unchanged after the round was attempted; the retried transition
fires again. -/
theorem warning_persistence_failure_paths_witness :
    processWarning id true (some exLogCancel) "北京" "loc1" exWarnActive [exSub] false 13
      = { sendAttempts := [], message := none, newStored := some exLogCancel, ok := false }
    ∧ (processWarning id false (some exLogCancel) "北京" "loc1" exWarnActive [exSub] true 13).sendAttempts
      = [exSub].map (fun s => s.user.chatID)
    ∧ (processWarning id false
        ((processWarning id false none "北京" "loc1" exWarnActive [exSub] true 13).newStored)
        "北京" "loc1" exWarnActive [exSub] false 14).sendAttempts
      = [exSub].map (fun s => s.user.chatID) := by
  have h := warning_persistence_failure_paths id "北京" "loc1" exWarnActive [exSub] 13 14
    (some exLogCancel)
  exact ⟨h.1, (h.2.1 (by decide)).1, h.2.2⟩

/-- C6 (code bug): on the location-failure path the delivered message does
omit all weather sections and does carry the failure notice, but the todos are
fetched with `sub.UserID` where the todo service expects a subscription id
(the normal path passes `sub.ID`), so the message lists the todos of whichever
subscription has id equal to the user id instead of this subscription's own
incomplete todos: here subscription 1 (user 2) owns one incomplete todo, yet
the fallback message reports none. -/
theorem fallback_todos_wrong_subscription :
    exSub.id = 1 ∧ exSub.userID = 2
    ∧ getIncompleteTodos exEnvLocFail.todoTable exSub.id = [exTodo]
    ∧ (sendReminder exEnvLocFail exSub).degraded = true
    ∧ strIncludes (sendReminder exEnvLocFail exSub).message "无法获取 北京 的位置信息"
    ∧ ¬ strIncludes (sendReminder exEnvLocFail exSub).message "天气播报"
    ∧ ¬ strIncludes (sendReminder exEnvLocFail exSub).message exTodo.content
    ∧ strIncludes (sendReminder exEnvLocFail exSub).message "暂无待办事项" := by
  refine ⟨rfl, rfl, by decide, rfl, by decide, by decide, by decide, by decide⟩

/-- C8: once location and current weather resolve, a failure of the
life-index, air-quality, hazard-alert or todo fetch never aborts the
pipeline: the dispatch stays on the normal (non-degraded) path addressed to
the subscriber's chat, and each failing fetch behaves exactly as a successful
fetch of the empty/nil value. -/
theorem noncritical_fetch_degradation
    (env : DispatchEnv) (sub : Subscription) (lid : String) (weather : CurrentWeather)
    (hloc : env.locationID = .ok lid) (hw : env.weather = .ok weather) :
    (sendReminder env sub).degraded = false
    ∧ (sendReminder env sub).chatID = sub.user.chatID
    ∧ (env.lifeIndices = .error () →
        sendReminder env sub = sendReminder { env with lifeIndices := .ok [] } sub)
    ∧ (env.airNow = .error () →
        sendReminder env sub = sendReminder { env with airNow := .ok none } sub)
    ∧ (env.warningsFetch = .error () →
        sendReminder env sub = sendReminder { env with warningsFetch := .ok [] } sub)
    ∧ (env.todoErr sub.id = true →
        sendReminder env sub
          = sendReminder { env with todoErr := fun _ => false, todoTable := [] } sub) := by
  refine ⟨?_, ?_, ?_, ?_, ?_, ?_⟩
  · unfold sendReminder
    rw [hloc, hw]
  · unfold sendReminder
    rw [hloc, hw]
  · intro hf
    unfold sendReminder
    rw [hloc, hw]
    simp [hf, fetchedTodos]
  · intro hf
    unfold sendReminder
    rw [hloc, hw]
    simp [hf, fetchedTodos]
  · intro hf
    unfold sendReminder
    rw [hloc, hw]
    simp [hf, fetchedTodos]
  · intro hf
    unfold sendReminder
    rw [hloc, hw]
    simp [fetchedTodos, hf, getIncompleteTodos, findIncompleteBySubscriptionID]

/-- C8 witness: in the environment where all four non-critical fetches fail at
once, delivery still happens on the normal path and each failure coincides
with the corresponding empty-value run. -/
theorem noncritical_fetch_degradation_witness :
    (sendReminder exEnvDegraded exSub).degraded = false
    ∧ (sendReminder exEnvDegraded exSub).chatID = exSub.user.chatID
    ∧ sendReminder exEnvDegraded exSub
        = sendReminder { exEnvDegraded with lifeIndices := .ok [] } exSub
    ∧ sendReminder exEnvDegraded exSub
        = sendReminder { exEnvDegraded with airNow := .ok none } exSub
    ∧ sendReminder exEnvDegraded exSub
        = sendReminder { exEnvDegraded with warningsFetch := .ok [] } exSub
    ∧ sendReminder exEnvDegraded exSub
        = sendReminder { exEnvDegraded with todoErr := fun _ => false, todoTable := [] } exSub := by
  have h := noncritical_fetch_degradation exEnvDegraded exSub "loc1" exWeather rfl rfl
  exact ⟨h.1, h.2.1, h.2.2.1 rfl, h.2.2.2.1 rfl, h.2.2.2.2.1 rfl, h.2.2.2.2.2 rfl⟩

/-- A string begins with itself followed by anything. -/
lemma strStarts_refl_append (p x : String) : strStarts (p ++ x) p := by
  unfold strStarts
  rw [String.data_append]
  exact List.prefix_append _ _

/-- Extending a string on the right preserves what it begins with. -/
lemma strStarts_append_right (a b p : String) (h : strStarts a p) : strStarts (a ++ b) p := by
  unfold strStarts at h ⊢
  rw [String.data_append]
  exact h.trans (List.prefix_append _ _)

/-- A common first part can be added on the left of both strings. -/
lemma strStarts_cancel_left (g c p : String) (h : strStarts c p) : strStarts (g ++ c) (g ++ p) := by
  unfold strStarts at h ⊢
  obtain ⟨t, ht⟩ := h
  exact ⟨t, by rw [String.data_append, String.data_append, List.append_assoc, ht]⟩

/-- Occurrence in the left part survives appending on the right. -/
lemma strIncludes_append_right (a b p : String) (h : strIncludes a p) :
    strIncludes (a ++ b) p := by
  unfold strIncludes at h ⊢
  rw [String.data_append]
  exact h.trans (List.prefix_append _ _).isInfix

/-- Occurrence in the right part survives appending on the left. -/
lemma strIncludes_append_left (a b p : String) (h : strIncludes b p) :
    strIncludes (a ++ b) p := by
  unfold strIncludes at h ⊢
  rw [String.data_append]
  exact h.trans (List.suffix_append _ _).isInfix

/-- The calendar/date block always begins with the date-header marker. -/
lemma calendarBlock_starts (cal : Option CalendarStrings) (d : String) :
    strStarts (calendarBlock cal d) "📆 " := by
  unfold calendarBlock
  cases cal with
  | none =>
    apply strStarts_append_right
    exact strStarts_refl_append _ _
  | some c =>
    apply strStarts_append_right
    apply strStarts_append_right
    apply strStarts_append_right
    exact strStarts_refl_append _ _

/-- With the AI tier absent or disabled, `sendReminder` on the normal path
delivers exactly the template with the AI flag off. -/
lemma sendReminder_aiOff (env : DispatchEnv) (sub : Subscription) (lid : String)
    (weather : CurrentWeather)
    (hloc : env.locationID = .ok lid) (hw : env.weather = .ok weather)
    (hai : (env.aiPresent && isEnabled env.aiEnabled env.aiHasClient) = false) :
    sendReminder env sub =
      { chatID := sub.user.chatID,
        message := buildFallbackMessage env.calendar sub.city weather
          (match env.lifeIndices with | .ok v => v | .error _ => [])
          (match env.airNow with | .ok v => v | .error _ => none)
          (if env.warningSvcPresent then
            (match env.warningsFetch with | .ok v => v | .error _ => []) else [])
          (fetchedTodos env sub.id) env.nowDate false,
        degraded := false } := by
  unfold sendReminder
  rw [hloc, hw]
  simp [hai]

/-- With no active hazard banner, the template begins with the greeting line
immediately followed by the date-header marker. -/
lemma buildFallbackMessage_starts (cal : Option CalendarStrings) (city : String)
    (weather : CurrentWeather) (indices : List LifeIndex) (aq : Option AirNow)
    (todos : List Todo) (d : String) (ai : Bool) :
    strStarts (buildFallbackMessage cal city weather indices aq [] todos d ai)
      ("🌅 早安！今日提醒\n" ++ "📆 ") := by
  unfold buildFallbackMessage
  simp only [List.length_nil, lt_self_iff_false, if_false, gt_iff_lt, String.append_empty]
  apply strStarts_append_right
  apply strStarts_append_right
  apply strStarts_append_right
  apply strStarts_append_right
  apply strStarts_append_right
  exact strStarts_cancel_left _ _ _ (calendarBlock_starts cal d)

/-- Every position of the rendered todo item list carries its numbered line
with the completion marker. -/
lemma formatTodoItems_item :
    ∀ (todos : List Todo) (i j : Nat) (hj : j < todos.length),
      strIncludes (formatTodoItems todos i)
        (toString (i + j) ++ ". "
          ++ (if (todos.get ⟨j, hj⟩).completed then "✅" else "⬜") ++ " "
          ++ (todos.get ⟨j, hj⟩).content ++ "\n") := by
  intro todos
  induction todos with
  | nil => intro i j hj; simp at hj
  | cons t rest ih =>
    intro i j hj
    cases j with
    | zero =>
      show strIncludes (_ ++ formatTodoItems rest (i + 1)) _
      apply strIncludes_append_right
      unfold strIncludes
      simp only [List.get, Nat.add_zero]
      exact List.infix_refl _
    | succ j =>
      have h := ih (i + 1) j (by simpa using hj)
      show strIncludes (_ ++ formatTodoItems rest (i + 1)) _
      apply strIncludes_append_left
      rw [show i + (j + 1) = (i + 1) + j from by omega]
      exact h

/-- `FormatTodoList` lists item `j` (numbered from 1) with the unchecked
marker whenever that item is incomplete. -/
lemma formatTodoList_item (todos : List Todo) (j : Nat) (hj : j < todos.length)
    (hcomp : (todos.get ⟨j, hj⟩).completed = false) :
    strIncludes (formatTodoList todos)
      (toString (j + 1) ++ ". " ++ "⬜" ++ " " ++ (todos.get ⟨j, hj⟩).content ++ "\n") := by
  have h := formatTodoItems_item todos 1 j hj
  rw [hcomp] at h
  unfold formatTodoList
  have hlen : (todos.length == 0) = false := by
    simp only [beq_eq_false_iff_ne]
    omega
  rw [hlen]
  simp only [Bool.false_eq_true, if_false]
  apply strIncludes_append_left
  rw [show j + 1 = 1 + j from by omega]
  simpa using h

/-- The template with the AI flag off carries each incomplete todo item's
rendered line. -/
lemma buildFallbackMessage_todoItem (cal : Option CalendarStrings) (city : String)
    (weather : CurrentWeather) (indices : List LifeIndex) (aq : Option AirNow)
    (warns : List Warning) (todos : List Todo) (d : String) (j : Nat)
    (hj : j < todos.length) (hcomp : (todos.get ⟨j, hj⟩).completed = false) :
    strIncludes (buildFallbackMessage cal city weather indices aq warns todos d false)
      (toString (j + 1) ++ ". " ++ "⬜" ++ " " ++ (todos.get ⟨j, hj⟩).content ++ "\n") := by
  unfold buildFallbackMessage
  simp only [Bool.false_eq_true, if_false, String.append_empty]
  apply strIncludes_append_left
  exact formatTodoList_item todos j hj hcomp

/-- Todos fetched through `GetIncompleteTodos` are all incomplete (the query
filters on the completed flag). -/
lemma fetchedTodos_not_completed (env : DispatchEnv) (id : Nat) :
    ∀ t ∈ fetchedTodos env id, t.completed = false := by
  intro t ht
  unfold fetchedTodos at ht
  by_cases he : env.todoErr id = true
  · simp [he] at ht
  · rw [if_neg he] at ht
    have hp := List.of_mem_filter ht
    simp only [Bool.and_eq_true, Bool.not_eq_true'] at hp
    exact hp.2

/-- C9 counterexample: with AI disabled and every fetch succeeding, the
delivered template does not begin with the date-header line (every date header
the template can emit starts with the 📆 marker) — it begins with the fixed
greeting line. -/
theorem template_first_line_not_date_header :
    ¬ strStarts (sendReminder exEnvBase exSub).message "📆"
    ∧ strStarts (sendReminder exEnvBase exSub).message "🌅 早安！今日提醒\n" := by
  constructor
  · decide
  · decide

/-- C9 (amended): for a successful pipeline with AI disabled and no active
hazard banner, the delivered message is the deterministic template (no AI
notice), beginning with the greeting line immediately followed by the
date-header line, and every fetched incomplete todo appears in it as a
numbered line with the unchecked marker. -/
theorem template_message_shape
    (env : DispatchEnv) (sub : Subscription) (lid : String) (weather : CurrentWeather)
    (hloc : env.locationID = .ok lid) (hw : env.weather = .ok weather)
    (hai : (env.aiPresent && isEnabled env.aiEnabled env.aiHasClient) = false)
    (hwarn : env.warningsFetch = .ok []) :
    (sendReminder env sub).degraded = false
    ∧ (sendReminder env sub).message = buildFallbackMessage env.calendar sub.city weather
        (match env.lifeIndices with | .ok v => v | .error _ => [])
        (match env.airNow with | .ok v => v | .error _ => none)
        [] (fetchedTodos env sub.id) env.nowDate false
    ∧ strStarts (sendReminder env sub).message ("🌅 早安！今日提醒\n" ++ "📆 ")
    ∧ (∀ j (hj : j < (fetchedTodos env sub.id).length),
        strIncludes (sendReminder env sub).message
          (toString (j + 1) ++ ". " ++ "⬜" ++ " "
            ++ ((fetchedTodos env sub.id).get ⟨j, hj⟩).content ++ "\n")) := by
  have hsend := sendReminder_aiOff env sub lid weather hloc hw hai
  rw [hwarn] at hsend
  simp only [ite_self] at hsend
  refine ⟨by rw [hsend], by rw [hsend], ?_, ?_⟩
  · rw [hsend]
    exact buildFallbackMessage_starts _ _ _ _ _ _ _ _
  · intro j hj
    rw [hsend]
    exact buildFallbackMessage_todoItem _ _ _ _ _ _ _ _ j hj
      (fetchedTodos_not_completed env sub.id _ (List.get_mem _ _ _))

/-- C9 witness: in the all-success AI-off environment the message is the
non-degraded template, begins with greeting then date header, and lists the
one incomplete todo with the unchecked marker. -/
theorem template_message_shape_witness :
    (sendReminder exEnvBase exSub).degraded = false
    ∧ strStarts (sendReminder exEnvBase exSub).message ("🌅 早安！今日提醒\n" ++ "📆 ")
    ∧ strIncludes (sendReminder exEnvBase exSub).message
        (toString (0 + 1) ++ ". " ++ "⬜" ++ " "
          ++ ((fetchedTodos exEnvBase exSub.id).get ⟨0, by decide⟩).content ++ "\n") := by
  have h := template_message_shape exEnvBase exSub "loc1" exWeather rfl rfl rfl rfl
  exact ⟨h.1, h.2.2.1, h.2.2.2 0 (by decide)⟩

/-- The city-grouping fold over subscriptions of one city adds that city to
the accumulator exactly once. -/
lemma foldl_cityAcc_const (c : String) :
    ∀ (subs : List Subscription) (acc : List String), (∀ s ∈ subs, s.city = c) →
      subs.foldl (fun acc s => if acc.contains s.city then acc else acc ++ [s.city]) acc
        = if subs.isEmpty then acc else (if acc.contains c then acc else acc ++ [c]) := by
  intro subs
  induction subs with
  | nil => intro acc h; simp
  | cons s rest ih =>
    intro acc h
    have hc : s.city = c := h s (List.mem_cons_self _ _)
    simp only [List.foldl_cons, hc]
    by_cases hacc : c ∈ acc
    · have haccb : (acc.contains c) = true := by simpa using hacc
      rw [if_pos haccb, ih acc (fun x hx => h x (List.mem_cons_of_mem _ hx))]
      by_cases hre : rest.isEmpty
      · simp [hre, haccb, hacc]
      · simp [hre, haccb, hacc]
    · have haccb : (acc.contains c) = false := by simpa using hacc
      rw [haccb]
      simp only [Bool.false_eq_true, if_false]
      rw [ih (acc ++ [c]) (fun x hx => h x (List.mem_cons_of_mem _ hx))]
      have hcc : ((acc ++ [c]).contains c) = true := by simp
      by_cases hre : rest.isEmpty
      · simp [hre, haccb]
      · simp [hre, haccb, hcc]

/-- A nonempty list of same-city subscriptions groups to exactly one key. -/
lemma cityKeys_const (subs : List Subscription) (c : String)
    (h : ∀ s ∈ subs, s.city = c) (hne : subs ≠ []) : cityKeys subs = [c] := by
  unfold cityKeys
  rw [foldl_cityAcc_const c subs [] h]
  simp [hne]

/-- Grouping same-city subscriptions under their own city keeps them all. -/
lemma cityGroup_all (subs : List Subscription) (c : String) (h : ∀ s ∈ subs, s.city = c) :
    cityGroup subs c = subs := by
  unfold cityGroup
  exact List.filter_eq_self.mpr (fun s hs => by simp [h s hs])

/-- A city whose location fails to resolve issues no alert-list fetch and
produces no outcomes, leaving the store unchanged. -/
lemma checkCityWarnings_locFail (ft : String → String)
    (locID : String → Except Unit String) (warnNow : String → Except Unit (List Warning))
    (readErr writeErr : String → Bool) (store : List WarningLog) (c : String)
    (subs : List Subscription) (now : Nat) (hloc : locID c = .error ()) :
    checkCityWarnings ft locID warnNow readErr writeErr store c subs now
      = { warnFetchCount := 0, outcomes := [], store := store, ok := false } := by
  unfold checkCityWarnings
  rw [hloc]

/-- A city with one fresh alert issues exactly one alert-list fetch and one
notification round covering every passed subscriber, and appends the new
record to the store. -/
lemma checkCityWarnings_fires (ft : String → String)
    (locID : String → Except Unit String) (warnNow : String → Except Unit (List Warning))
    (store : List WarningLog) (c lid : String) (subs : List Subscription) (now : Nat)
    (w : Warning) (hloc : locID c = .ok lid) (hwn : warnNow lid = .ok [w])
    (hstore : getByWarningID store w.id = none) :
    checkCityWarnings ft locID warnNow (fun _ => false) (fun _ => false) store c subs now
      = { warnFetchCount := 1,
          outcomes := [{ sendAttempts := subs.map (fun s => s.user.chatID),
                         message := some (formatWarningMessage ft c w),
                         newStored := some { warningID := w.id, locationID := lid, city := c,
                                             typ := w.typ, level := w.level, title := w.title,
                                             status := w.status, notifiedAt := now },
                         ok := true }],
          store := store ++ [{ warningID := w.id, locationID := lid, city := c,
                               typ := w.typ, level := w.level, title := w.title,
                               status := w.status, notifiedAt := now }],
          ok := true } := by
  unfold checkCityWarnings
  rw [hloc]
  simp only [hwn]
  simp only [List.length_cons, List.length_nil, Nat.zero_add, Nat.reduceBEq,
    Bool.false_eq_true, if_false]
  have hfind : store.find? (fun l => l.warningID == w.id) = none := hstore
  simp only [processWarningList, processWarningInStore, processWarning, shouldNotify,
    getByWarningID, hfind]
  simp only [Bool.not_true, Bool.false_eq_true, if_false]
  unfold upsertLog
  simp only [hfind]
  simp


/-- C7: for N active, warning-enabled subscribers sharing one city, a poll
cycle issues exactly one alert-list fetch for that city regardless of N, and
a firing alert produces one send attempt per subscriber (the Go send loop
only logs per-recipient failures, so the attempt list never depends on
transport results); a city whose fetch fails contributes no fetch and no
sends but the other city in the same cycle is still processed in full. -/
theorem warning_city_fanout
    (ft : String → String) (locID : String → Except Unit String)
    (warnNow : String → Except Unit (List Warning))
    (subsA subsB : List Subscription) (c1 c2 lid : String) (w : Warning)
    (store : List WarningLog) (now : Nat)
    (hA : ∀ s ∈ subsA, s.city = c1 ∧ s.active = true ∧ s.enableWarning = true)
    (hB : ∀ s ∈ subsB, s.city = c2 ∧ s.active = true ∧ s.enableWarning = true)
    (hAne : subsA ≠ []) (hBne : subsB ≠ []) (hcc : c1 ≠ c2)
    (hloc1 : locID c1 = .error ()) (hloc2 : locID c2 = .ok lid)
    (hwn : warnNow lid = .ok [w])
    (hstore : getByWarningID store w.id = none) :
    ((checkAndNotify ft locID warnNow (fun _ => false) (fun _ => false) subsB store now).fetches
        = [c2]
      ∧ (checkAndNotify ft locID warnNow (fun _ => false) (fun _ => false) subsB store now).results.map
          (fun r => r.outcomes.map ProcessOutcome.sendAttempts)
        = [[subsB.map (fun s => s.user.chatID)]])
    ∧ ((checkAndNotify ft locID warnNow (fun _ => false) (fun _ => false) (subsA ++ subsB) store now).fetches
        = [c2]
      ∧ (checkAndNotify ft locID warnNow (fun _ => false) (fun _ => false) (subsA ++ subsB) store now).results.map
          (fun r => r.outcomes.map ProcessOutcome.sendAttempts)
        = [[], [subsB.map (fun s => s.user.chatID)]]
      ∧ (checkAndNotify ft locID warnNow (fun _ => false) (fun _ => false) (subsA ++ subsB) store now).results.map
          CityResult.ok = [false, true]
      ∧ (checkAndNotify ft locID warnNow (fun _ => false) (fun _ => false) (subsA ++ subsB) store now).results.map
          CityResult.warnFetchCount = [0, 1]) := by
  have hfB : subsB.filter (fun s => s.active && s.enableWarning) = subsB :=
    List.filter_eq_self.mpr (fun s hs => by simp [(hB s hs).2.1, (hB s hs).2.2])
  have hgB : cityGroup subsB c2 = subsB := cityGroup_all _ _ (fun s hs => (hB s hs).1)
  have hcw2 := checkCityWarnings_fires ft locID warnNow store c2 lid subsB now w hloc2 hwn hstore
  constructor
  · have hkB : cityKeys subsB = [c2] := cityKeys_const _ _ (fun s hs => (hB s hs).1) hBne
    unfold checkAndNotify
    rw [hfB, hkB]
    simp only [checkCitiesLoop]
    rw [hgB, hcw2]
    simp [checkCitiesLoop]
  · have hfAB : (subsA ++ subsB).filter (fun s => s.active && s.enableWarning) = subsA ++ subsB :=
      List.filter_eq_self.mpr (fun s hs => by
        rcases List.mem_append.mp hs with h | h
        · simp [(hA s h).2.1, (hA s h).2.2]
        · simp [(hB s h).2.1, (hB s h).2.2])
    have heA : subsA.isEmpty = false := by
      cases subsA with
      | nil => exact absurd rfl hAne
      | cons x xs => rfl
    have heB : subsB.isEmpty = false := by
      cases subsB with
      | nil => exact absurd rfl hBne
      | cons x xs => rfl
    have hkAB : cityKeys (subsA ++ subsB) = [c1, c2] := by
      have e1 : List.foldl (fun acc s => if acc.contains s.city then acc else acc ++ [s.city])
          [] subsA = [c1] := by
        rw [foldl_cityAcc_const c1 subsA [] (fun s hs => (hA s hs).1)]
        simp [heA]
      have e2 : List.foldl (fun acc s => if acc.contains s.city then acc else acc ++ [s.city])
          [c1] subsB = [c1, c2] := by
        rw [foldl_cityAcc_const c2 subsB [c1] (fun s hs => (hB s hs).1)]
        have h2 : ([c1].contains c2) = false := by
          simp only [List.contains_cons, List.contains_nil, Bool.or_false]
          exact beq_eq_false_iff_ne.mpr (fun he => hcc he.symm)
        have hne : ¬ c2 = c1 := fun he => hcc he.symm
        simp [heB, h2, hne]
      unfold cityKeys
      rw [List.foldl_append, e1, e2]
    have hgA1 : cityGroup (subsA ++ subsB) c1 = subsA := by
      unfold cityGroup
      rw [List.filter_append]
      have h1 : subsA.filter (fun s => s.city == c1) = subsA :=
        List.filter_eq_self.mpr (fun s hs => by simp [(hA s hs).1])
      have h2 : subsB.filter (fun s => s.city == c1) = [] :=
        List.filter_eq_nil_iff.mpr (fun s hs => by simp [(hB s hs).1]; exact fun he => hcc he.symm)
      rw [h1, h2, List.append_nil]
    have hgB2 : cityGroup (subsA ++ subsB) c2 = subsB := by
      unfold cityGroup
      rw [List.filter_append]
      have h1 : subsA.filter (fun s => s.city == c2) = [] :=
        List.filter_eq_nil_iff.mpr (fun s hs => by simp [(hA s hs).1]; exact hcc)
      have h2 : subsB.filter (fun s => s.city == c2) = subsB :=
        List.filter_eq_self.mpr (fun s hs => by simp [(hB s hs).1])
      rw [h1, h2, List.nil_append]
    have hcw1 := checkCityWarnings_locFail ft locID warnNow (fun _ => false) (fun _ => false)
      store c1 subsA now hloc1
    unfold checkAndNotify
    rw [hfAB, hkAB]
    simp only [checkCitiesLoop]
    rw [hgA1, hgB2, hcw1]
    simp only []
    rw [hcw2]
    simp [checkCitiesLoop]


theorem warning_city_fanout_witness :
    (checkAndNotify id exLocID exWarnNow (fun _ => false) (fun _ => false)
        [exSub, exSub2] [] 99).fetches = ["北京"]
    ∧ (checkAndNotify id exLocID exWarnNow (fun _ => false) (fun _ => false)
        [exSub, exSub2] [] 99).results.map (fun r => r.outcomes.map ProcessOutcome.sendAttempts)
      = [[[exSub, exSub2].map (fun s => s.user.chatID)]]
    ∧ (checkAndNotify id exLocID exWarnNow (fun _ => false) (fun _ => false)
        ([exSubSH] ++ [exSub, exSub2]) [] 99).fetches = ["北京"]
    ∧ (checkAndNotify id exLocID exWarnNow (fun _ => false) (fun _ => false)
        ([exSubSH] ++ [exSub, exSub2]) [] 99).results.map CityResult.ok = [false, true] := by
  have h := warning_city_fanout id exLocID exWarnNow [exSubSH] [exSub, exSub2]
    "上海" "北京" "loc1" exWarnActive [] 99 (by decide) (by decide)
    (List.cons_ne_nil _ _) (List.cons_ne_nil _ _) (by decide) rfl rfl rfl rfl
  exact ⟨h.1.1, h.1.2, h.2.1, h.2.2.2.1⟩

end DailyReminderBot
